import Mathlib

/-!
Shallow embedding of `src/server.py` (llama-switch): the shared service
state, the process supervisor (`_stop_process_unsafe`, `_start_model_server`,
the `/api/start`, `/api/stop`, `/api/status` routes), the log monitor
(`log_reader`), the config manager (`ConfigManager.reload` / `get_models`)
and the auto-load proxy (`proxy_to_llama`).

Modelling conventions:
- OS-level effects (killing the process group, spawning, socket binding,
  sleeping) are external; they enter the model as explicit parameters
  (the allocated free port, the spawn outcome, the schedule of values the
  readiness flag shows at each poll).  The state effects of each Python
  function are translated line by line.
- Python `float` values parsed from decimal literals are modelled as exact
  rationals (`ℚ`); every decimal constant compared in this file is exactly
  representable as a binary double, so no rounding distinction is visible.
- Python strings are modelled as `String` / `List Char`; the log lines at
  issue are ASCII, and `\s` is modelled by the ASCII whitespace class.
-/

namespace LlamaSwitch

/-- The `state.stats` dict: `ctx_used`, `ctx_limit`, `total_tokens`,
`prompt_speed`, `gen_speed` (src/server.py lines 129-135). -/
structure StatsSnapshot where
  ctx_used : Nat
  ctx_limit : Nat
  total_tokens : Nat
  prompt_speed : ℚ
  gen_speed : ℚ
deriving DecidableEq, Repr

/-- The zero stats dict written at init and on every reset
(src/server.py lines 129-135 and 159-165). -/
def StatsSnapshot.zero : StatsSnapshot :=
  { ctx_used := 0, ctx_limit := 0, total_tokens := 0,
    prompt_speed := 0, gen_speed := 0 }

/-- A `subprocess.Popen` handle: its pid and whether `poll()` returns
`None` (the process is still alive). -/
structure BackendProcess where
  pid : Nat
  alive : Bool
deriving DecidableEq, Repr

/-- A model entry of the config mapping; `cmd` is the command template
(`model_conf.get("cmd", "")` reads it with default `""`). -/
structure ModelConf where
  cmd : Option String
deriving DecidableEq, Repr

/-- `ConfigManager`'s mutable fields: the model mapping and `last_mtime`
(src/server.py lines 49-64).  The mapping is an association list with the
dict's key uniqueness left implicit. -/
structure ConfigManager where
  models : List (String × ModelConf)
  last_mtime : Nat
deriving DecidableEq, Repr

/-- Outcome of the external world for one `ConfigManager.reload` call:
the file is missing, or reading/parsing raises (`yaml` error, or
`data.get` on a `None` document), or parsing yields the `models` mapping
(`data.get("models", {})`) together with the file's mtime. -/
inductive ReloadEnv where
  | fileMissing : ReloadEnv
  | parseError : ReloadEnv
  | parsed (mtime : Nat) (models : List (String × ModelConf)) : ReloadEnv
deriving DecidableEq, Repr

/-- `ConfigManager.reload` (src/server.py lines 71-88): a missing file sets
`self.models = {}`; an exception while reading or parsing is caught after
logging, before `self.models` or `self.last_mtime` were assigned, so both
keep their previous values; a successful parse replaces the mapping and
records the mtime. -/
def ConfigManager.reload (cm : ConfigManager) (env : ReloadEnv) : ConfigManager :=
  match env with
  | .fileMissing => { cm with models := [] }
  | .parseError => cm
  | .parsed mtime ms => { models := ms, last_mtime := mtime }

/-- `ConfigManager.get_models` (src/server.py lines 106-108). -/
def ConfigManager.get_models (cm : ConfigManager) : List (String × ModelConf) :=
  cm.models

/-- The global `ServiceState` (src/server.py lines 117-135). -/
structure ServiceState where
  process : Option BackendProcess
  current_model : Option String
  current_ctx : Nat
  current_port : Nat
  default_ctx : Nat
  host : String
  ready : Bool
  logs : List String
  config_mgr : Option ConfigManager
  stats : StatsSnapshot
deriving DecidableEq, Repr

/-- The fresh `ServiceState()` built at module load (src/server.py line 138). -/
def ServiceState.init : ServiceState :=
  { process := none, current_model := none, current_ctx := 0, current_port := 0,
    default_ctx := 4096, host := "0.0.0.0", ready := false, logs := [],
    config_mgr := none, stats := StatsSnapshot.zero }

/-- `_stop_process_unsafe` (src/server.py lines 142-166): if no process is
recorded the body is skipped entirely; otherwise the process group is
signalled (an external effect) and the slot, model key, port, readiness
flag and stats are cleared.  The function is total: no path raises. -/
def stopProcessUnsafe (s : ServiceState) : ServiceState :=
  match s.process with
  | none => s
  | some _ =>
      { s with process := none, current_model := none, current_port := 0,
               ready := false, stats := StatsSnapshot.zero }

/-- States reachable by the service satisfy: once the process slot is
empty, the model key, port, readiness flag and stats are in their cleared
values (they are only ever set while a process is being installed, and
cleared together with the slot). -/
def StoppedCleared (s : ServiceState) : Prop :=
  s.process = none →
    s.current_model = none ∧ s.current_port = 0 ∧ s.ready = false ∧
      s.stats = StatsSnapshot.zero

instance (s : ServiceState) : Decidable (StoppedCleared s) := by
  unfold StoppedCleared; infer_instance

/-! ### Log-line matching

The three regexes of `log_reader` (src/server.py lines 180-190) are built
from literals and the character classes `\s`, `\d`, `[\d\.]`.  At every
junction of the patterns the class and the following literal's first
character are disjoint, so Python's backtracking search is equivalent to
maximal-munch parsing tried at each start position from the left; the
matchers below implement exactly that. -/

/-- ASCII `\s` (the log lines at issue are ASCII). -/
def ws (c : Char) : Bool :=
  c = ' ' || c = '\t' || c = '\n' || c = '\r' || c = '\x0b' || c = '\x0c'

/-- The class `[\d\.]`. -/
def digitDot (c : Char) : Bool :=
  c.isDigit || c = '.'

/-- Match a literal: consume `pat` from the front of the input, returning
the rest, or fail. -/
def lit : List Char → List Char → Option (List Char)
  | [], l => some l
  | _ :: _, [] => none
  | p :: ps, c :: cs => if c = p then lit ps cs else none

/-- Greedy `⟨class⟩+`: the maximal non-empty run of class characters and
the remaining input. -/
def rePlus (p : Char → Bool) (l : List Char) : Option (List Char × List Char) :=
  match l.takeWhile p with
  | [] => none
  | t => some (t, l.dropWhile p)

/-- The common tail of the two eval-time regexes,
`\s*=\s*[\d\.]+\s*ms\s*/\s*(\d+)\s*tokens\s*\(\s*[\d\.]+\s*ms per token,\s*([\d\.]+)\s*tokens per second\)`,
returning the two captured texts (token count, tokens-per-second). -/
def tailParse (l : List Char) : Option (List Char × List Char) := do
  let l := l.dropWhile ws
  let l ← lit "=".data l
  let l := l.dropWhile ws
  let (_, l) ← rePlus digitDot l
  let l := l.dropWhile ws
  let l ← lit "ms".data l
  let l := l.dropWhile ws
  let l ← lit "/".data l
  let l := l.dropWhile ws
  let (tok, l) ← rePlus (fun c => c.isDigit) l
  let l := l.dropWhile ws
  let l ← lit "tokens".data l
  let l := l.dropWhile ws
  let l ← lit "(".data l
  let l := l.dropWhile ws
  let (_, l) ← rePlus digitDot l
  let l := l.dropWhile ws
  let l ← lit "ms per token,".data l
  let l := l.dropWhile ws
  let (spd, l) ← rePlus digitDot l
  let l := l.dropWhile ws
  let _ ← lit "tokens per second)".data l
  return (tok, spd)

/-- `re_prompt` (src/server.py lines 180-182) tried at one position:
`prompt eval time` followed by the common tail.  The regex's single
capture group is the tokens-per-second text (`Prod.snd`). -/
def matchPromptAt (l : List Char) : Option (List Char × List Char) :=
  (lit "prompt eval time".data l).bind tailParse

/-- `re_eval` (src/server.py lines 185-187) tried at one position:
`\s+eval time` followed by the common tail; group 1 is the token count,
group 2 the tokens-per-second text. -/
def matchEvalAt (l : List Char) : Option (List Char × List Char) := do
  let (_, l) ← rePlus ws l
  let l ← lit "eval time".data l
  tailParse l

/-- `re_release` (src/server.py line 190) tried at one position:
`stop processing: n_tokens = (\d+)`, returning the captured digits. -/
def matchReleaseAt (l : List Char) : Option (List Char) := do
  let l ← lit "stop processing: n_tokens = ".data l
  let (tok, _) ← rePlus (fun c => c.isDigit) l
  return tok

/-- `re.search`: try the matcher at every start position, leftmost first. -/
def reSearch {α : Type} (m : List Char → Option α) : List Char → Option α
  | [] => m []
  | c :: rest =>
    match m (c :: rest) with
    | some r => some r
    | none => reSearch m rest

/-- `int(...)` on a `\d+` capture (never raises). -/
def parseNat (l : List Char) : Nat :=
  l.foldl (fun acc c => acc * 10 + (c.toNat - 48)) 0

/-- `float(...)` on a `[\d\.]+` capture: defined iff the text has at most
one dot and at least one digit (otherwise Python raises `ValueError`,
which `log_reader` catches); the value is the exact decimal rational. -/
def parseFloat (l : List Char) : Option ℚ :=
  if l.all digitDot = true ∧ l.count '.' ≤ 1 ∧ l.any (fun c => c.isDigit) = true then
    let ip := l.takeWhile (fun c => c ≠ '.')
    let fp := (l.dropWhile (fun c => c ≠ '.')).drop 1
    some ((parseNat ip : ℚ) + (parseNat fp : ℚ) / (10 : ℚ) ^ fp.length)
  else none

/-- Python's `str.rstrip()` on an ASCII line. -/
def pyRstrip (l : List Char) : List Char :=
  (l.reverse.dropWhile ws).reverse

/-- Python's substring test `pat in hay`. -/
def containsSub (pat : List Char) : List Char → Bool
  | [] => pat.isEmpty
  | c :: rest => pat.isPrefixOf (c :: rest) || containsSub pat rest

/-- The readiness check of `log_reader` (src/server.py lines 206-211):
any of four fixed substrings marks the backend ready. -/
def isReadyMarker (d : List Char) : Bool :=
  containsSub "main: model loaded".data d ||
  containsSub "\"msg\":\"model loaded\"".data d ||
  containsSub "server is listening on".data d ||
  containsSub "main: server is listening".data d

/-- `collections.deque(maxlen=cap).append`: append and evict oldest
entries beyond the capacity. -/
def dequeAppend (cap : Nat) (l : List String) (x : String) : List String :=
  let l' := l ++ [x]
  if cap < l'.length then l'.drop (l'.length - cap) else l'

/-- The prompt-speed section of `log_reader` (src/server.py lines 219-224):
on a `re_prompt` match, parse the rate and replace `prompt_speed`.  The
`Bool` is false when `float(...)` raised, which aborts the rest of the
try block. -/
def promptStep (s : ServiceState) (d : List Char) : ServiceState × Bool :=
  match reSearch matchPromptAt d with
  | none => (s, true)
  | some (_, spd) =>
    match parseFloat spd with
    | none => (s, false)
    | some v => ({ s with stats := { s.stats with prompt_speed := v } }, true)

/-- The gen-speed section of `log_reader` (src/server.py lines 226-233):
on a `re_eval` match, replace `gen_speed` and add the token count to
`total_tokens`. -/
def evalStep (s : ServiceState) (d : List Char) : ServiceState × Bool :=
  match reSearch matchEvalAt d with
  | none => (s, true)
  | some (tok, spd) =>
    match parseFloat spd with
    | none => (s, false)
    | some v =>
      let st := { s.stats with gen_speed := v }
      let st := { st with total_tokens := s.stats.total_tokens + parseNat tok }
      ({ s with stats := st }, true)

/-- The slot-release section of `log_reader` (src/server.py lines 235-242):
on a `re_release` match, replace `ctx_used` and, when a context size is
configured, set `ctx_limit` to it.  `int(...)` on `\d+` never raises. -/
def releaseStep (s : ServiceState) (d : List Char) : ServiceState :=
  match reSearch matchReleaseAt d with
  | none => s
  | some tok =>
    let st := { s.stats with ctx_used := parseNat tok }
    let st := if 0 < s.current_ctx then { st with ctx_limit := s.current_ctx } else st
    { s with stats := st }

/-- The whole `try` block of stats parsing for one line (src/server.py
lines 218-244): the three sections run in order; an exception in one is
caught and skips the following sections while keeping earlier updates. -/
def statsUpdate (s : ServiceState) (d : List Char) : ServiceState :=
  match promptStep s d with
  | (s1, false) => s1
  | (s1, true) =>
    match evalStep s1 d with
    | (s2, false) => s2
    | (s2, true) => releaseStep s2 d

/-- `log_reader`'s handling of one received line (src/server.py lines
199-244): rstrip, append to the log deque, set the readiness flag on a
marker (`if not state.ready: state.ready = True` — equivalent to setting
it true), then run the stats sections. -/
def processLine (s : ServiceState) (line : String) : ServiceState :=
  let decoded := pyRstrip line.data
  let s1 := { s with logs := dequeAppend 2000 s.logs (String.mk decoded) }
  let s2 := if isReadyMarker decoded then { s1 with ready := true } else s1
  statsUpdate s2 decoded

/-! ### Process supervisor -/

/-- The decimal digit characters (the argument is always `< 10` where
this is used). -/
def decDigit (d : Nat) : Char :=
  match d with
  | 0 => '0' | 1 => '1' | 2 => '2' | 3 => '3' | 4 => '4'
  | 5 => '5' | 6 => '6' | 7 => '7' | 8 => '8' | _ => '9'

/-- Python `str(n)` for a natural number: decimal digits. -/
def natToStr (n : Nat) : List Char :=
  if _h : n < 10 then [decDigit n]
  else natToStr (n / 10) ++ [decDigit (n % 10)]
termination_by n
decreasing_by exact Nat.div_lt_self (by omega) (by omega)

/-- Python `str(n)` as a `String`. -/
def natStr (n : Nat) : String := String.mk (natToStr n)

/-- Python `str.replace` on character lists (non-empty pattern): scan left
to right, replacing non-overlapping occurrences of `pat` by `rep`. -/
def replaceL (pat rep : List Char) : List Char → List Char
  | [] => []
  | c :: rest =>
    if _h : pat ≠ [] ∧ pat.isPrefixOf (c :: rest) then
      rep ++ replaceL pat rep ((c :: rest).drop pat.length)
    else
      c :: replaceL pat rep rest
termination_by l => l.length
decreasing_by
  · have hp : 0 < pat.length := List.length_pos.mpr _h.1
    simp [List.length_drop]
    omega
  · simp

/-- Python `str.replace` on `String`s. -/
def pyReplace (s pat rep : String) : String :=
  String.mk (replaceL pat.data rep.data s.data)

/-- The placeholder substitution of `_start_model_server` (src/server.py
lines 274-280): replace `${PORT}`, `${CTX}`, `${HOST}`, then the
bare-dollar fallbacks `$PORT`, `$CTX`, `$HOST`, in that order. -/
def resolveCmd (template : String) (port ctx : Nat) (host : String) : String :=
  let c := pyReplace template "${PORT}" (natStr port)
  let c := pyReplace c "${CTX}" (natStr ctx)
  let c := pyReplace c "${HOST}" host
  let c := pyReplace c "$PORT" (natStr port)
  let c := pyReplace c "$CTX" (natStr ctx)
  pyReplace c "$HOST" host

/-- The exceptions `_start_model_server` can raise: `RuntimeError` when no
config manager is installed, `ValueError("Model not found in config")`,
and `RuntimeError` re-raised after a spawn failure. -/
inductive StartError where
  | configNotInit : StartError
  | modelNotFound : StartError
  | spawnFailure : StartError
deriving DecidableEq, Repr

/-- `_start_model_server` (src/server.py lines 257-310).  External inputs:
`freePort` is the port `find_free_port()` returns, `spawn` the outcome of
`subprocess.Popen` (`none` = raises).  The state checks and the error for
an unknown key happen before any mutation; on the success path the current
process is first stopped (under the lock), then the new process and its
model key, context and port are installed; on a spawn failure the slot is
left empty and the stop's effects remain. -/
def startModelServer (s : ServiceState) (model_key : String) (ctx? : Option Nat)
    (freePort : Nat) (spawn : Option BackendProcess) :
    ServiceState × Except StartError (Nat × String) :=
  match s.config_mgr with
  | none => (s, .error .configNotInit)
  | some cfg =>
    match cfg.get_models.lookup model_key with
    | none => (s, .error .modelNotFound)
    | some model_conf =>
      let cmd_template := model_conf.cmd.getD ""
      let ctx := ctx?.getD s.default_ctx
      let port := freePort
      let cmd_str := resolveCmd cmd_template port ctx s.host
      let s1 := stopProcessUnsafe s
      match spawn with
      | none => ({ s1 with process := none }, .error .spawnFailure)
      | some p =>
        let s2 := { s1 with process := some p }
        let s2 := { s2 with current_model := some model_key }
        let s2 := { s2 with current_ctx := ctx }
        let s2 := { s2 with current_port := port }
        (s2, .ok (port, cmd_str))

/-- The recomputed `is_running` check used by `get_status` and the proxy
(src/server.py lines 389 and 443): a process is recorded and `poll()`
says it has not exited. -/
def isRunning (s : ServiceState) : Bool :=
  match s.process with
  | some p => p.alive
  | none => false

/-- The JSON object `get_status` returns (src/server.py lines 390-399). -/
structure StatusReport where
  running : Bool
  ready : Bool
  model : Option String
  ctx : Nat
  port : Option Nat
  host : String
  pid : Option Nat
  stats : StatsSnapshot
deriving DecidableEq, Repr

/-- `get_status` (src/server.py lines 386-399): `running` is recomputed at
call time; `port` and `pid` are reported only while running. -/
def getStatus (s : ServiceState) : StatusReport :=
  let is_running := isRunning s
  { running := is_running, ready := s.ready, model := s.current_model,
    ctx := s.current_ctx,
    port := if is_running then some s.current_port else none,
    host := s.host,
    pid := match s.process with
           | some p => if is_running then some p.pid else none
           | none => none,
    stats := s.stats }

/-- `stop_server`, the `/api/stop` route (src/server.py lines 407-411):
always calls `_stop_process_unsafe` under the lock and returns
`{"status": "stopped"}`. -/
def stopServerRoute (s : ServiceState) : ServiceState × String :=
  (stopProcessUnsafe s, "stopped")

/-- The HTTP-level outcome of the `/api/start` route. -/
inductive StartResponse where
  | started (port : Nat) (command : String) : StartResponse
  | httpError (status : Nat) (detail : String) : StartResponse
deriving DecidableEq, Repr

/-- `start_server`, the `/api/start` route (src/server.py lines 414-422):
`ValueError` becomes a 404, `RuntimeError` a 500. -/
def startServerRoute (s : ServiceState) (model_key : String) (ctx? : Option Nat)
    (freePort : Nat) (spawn : Option BackendProcess) : ServiceState × StartResponse :=
  match startModelServer s model_key ctx? freePort spawn with
  | (s', .ok (port, cmd)) => (s', .started port cmd)
  | (s', .error .modelNotFound) => (s', .httpError 404 "Model not found in config")
  | (s', .error .configNotInit) => (s', .httpError 500 "Config not initialized")
  | (s', .error .spawnFailure) => (s', .httpError 500 "spawn failed")

/-! ### Gateway / auto-load proxy -/

/-- The readiness-poll loop of `proxy_to_llama` (src/server.py lines
458-463): `while retries < 60: if state.ready: break; sleep(1);
retries += 1`.  `readyAt k` is the value `state.ready` shows at the read
made with `retries = k` (the flag is written concurrently by the log
monitor); the result is the final value of `retries`.  Each failed
iteration stands for one 1-second sleep. -/
def pollLoop (readyAt : Nat → Bool) (retries : Nat) : Nat :=
  if h : retries < 60 then
    if readyAt retries then retries else pollLoop readyAt (retries + 1)
  else retries
termination_by 60 - retries
decreasing_by omega

/-- The HTTP-level outcome of the proxy route. -/
inductive ProxyResponse where
  | httpError (status : Nat) (detail : String) : ProxyResponse
  | forwarded (host : String) (port : Nat) (path : String) : ProxyResponse
deriving DecidableEq, Repr

/-- The wait-then-forward tail of `proxy_to_llama` (src/server.py lines
457-471): run the poll loop, re-read the flag (`if not state.ready`), and
either fail 504 — leaving the state untouched — or forward to
`http://{host}:{port}{path}`.  The final re-read is modelled as
`readyAt` at the loop's final `retries` value. -/
def proxyWait (s : ServiceState) (readyAt : Nat → Bool) (path : String) :
    ServiceState × ProxyResponse :=
  let r := pollLoop readyAt 0
  if readyAt r then (s, .forwarded s.host s.current_port path)
  else (s, .httpError 504 "Model failed to load within timeout")

/-- `proxy_to_llama` (src/server.py lines 425-503) up to the forwarding
decision.  `body` is the parsed request: `none` = unparsable JSON,
`some none` = no `model` field, `some (some m)` = requested model `m`.
The auto-load triggers when the requested model differs from the current
one or nothing is running; `ValueError` maps to 404 and `RuntimeError`
to 500.  The streaming of the forwarded response is external I/O. -/
def proxyToLlama (s : ServiceState) (body : Option (Option String)) (path : String)
    (freePort : Nat) (spawn : Option BackendProcess) (readyAt : Nat → Bool) :
    ServiceState × ProxyResponse :=
  match body with
  | none => (s, .httpError 400 "Invalid JSON")
  | some none => (s, .httpError 400 "Model field required")
  | some (some requested) =>
    let is_running := isRunning s
    if some requested ≠ s.current_model ∨ is_running = false then
      match startModelServer s requested none freePort spawn with
      | (s', .ok _) => proxyWait s' readyAt path
      | (s', .error .modelNotFound) =>
          (s', .httpError 404 ("Model " ++ requested ++ " not found"))
      | (s', .error .configNotInit) => (s', .httpError 500 "Config not initialized")
      | (s', .error .spawnFailure) => (s', .httpError 500 "spawn failed")
    else proxyWait s readyAt path

/-! ### Sample values used by witnesses and counterexamples -/

/-- A live backend process handle. -/
def procA : BackendProcess := { pid := 4242, alive := true }

/-- A loaded configuration with two models `a` and `b`. -/
def cfgAB : ConfigManager :=
  { models := [("a", { cmd := some "run --port ${PORT}" }),
               ("b", { cmd := some "serve $PORT" })],
    last_mtime := 7 }

/-- A service state with backend `a` running and some accumulated stats. -/
def runningA : ServiceState :=
  { process := some procA, current_model := some "a", current_ctx := 4096,
    current_port := 8080, default_ctx := 4096, host := "0.0.0.0", ready := true,
    logs := [], config_mgr := some cfgAB,
    stats := { ctx_used := 10, ctx_limit := 4096, total_tokens := 25,
               prompt_speed := 100, gen_speed := 50 } }

/-! ### Helper lemmas about the supervisor -/

theorem stopProcessUnsafe_process (s : ServiceState) :
    (stopProcessUnsafe s).process = none := by
  unfold stopProcessUnsafe
  cases h : s.process with
  | none => exact h
  | some p => rfl

theorem stopProcessUnsafe_of_none (s : ServiceState) (h : s.process = none) :
    stopProcessUnsafe s = s := by
  unfold stopProcessUnsafe
  rw [h]

theorem stopProcessUnsafe_cleared (s : ServiceState) (hInv : StoppedCleared s) :
    (stopProcessUnsafe s).current_model = none ∧
    (stopProcessUnsafe s).current_port = 0 ∧
    (stopProcessUnsafe s).ready = false ∧
    (stopProcessUnsafe s).stats = StatsSnapshot.zero := by
  unfold stopProcessUnsafe
  cases h : s.process with
  | none => exact hInv h
  | some p => exact ⟨rfl, rfl, rfl, rfl⟩

theorem stopProcessUnsafe_frame (s : ServiceState) :
    (stopProcessUnsafe s).current_ctx = s.current_ctx ∧
    (stopProcessUnsafe s).default_ctx = s.default_ctx ∧
    (stopProcessUnsafe s).host = s.host ∧
    (stopProcessUnsafe s).logs = s.logs ∧
    (stopProcessUnsafe s).config_mgr = s.config_mgr := by
  unfold stopProcessUnsafe
  cases h : s.process <;> exact ⟨rfl, rfl, rfl, rfl, rfl⟩

/-! ### Claims -/

/-- C1: `stop()` is idempotent: on a state with no backend process it is a
no-op (and, the function being total, it never errors); every call leaves
the process slot empty with the model key cleared, the port cleared, the
readiness flag false and every `StatsSnapshot` field zero (all written in
the single update `_stop_process_unsafe` performs under the lock), and a
second call changes nothing further.  The hypothesis `StoppedCleared s` is
the reachable-state invariant that an empty slot already has its
fields cleared. -/
theorem stop_idempotent_clears (s : ServiceState) (hInv : StoppedCleared s) :
    (s.process = none → stopProcessUnsafe s = s) ∧
    (stopProcessUnsafe s).process = none ∧
    (stopProcessUnsafe s).current_model = none ∧
    (stopProcessUnsafe s).current_port = 0 ∧
    (stopProcessUnsafe s).ready = false ∧
    (stopProcessUnsafe s).stats = StatsSnapshot.zero ∧
    stopProcessUnsafe (stopProcessUnsafe s) = stopProcessUnsafe s ∧
    (stopServerRoute s).2 = "stopped" := by
  obtain ⟨h1, h2, h3, h4⟩ := stopProcessUnsafe_cleared s hInv
  exact ⟨stopProcessUnsafe_of_none s, stopProcessUnsafe_process s, h1, h2, h3, h4,
    stopProcessUnsafe_of_none _ (stopProcessUnsafe_process s), rfl⟩

theorem stop_idempotent_clears_witness :
    (stopProcessUnsafe runningA).process = none ∧
    (stopProcessUnsafe runningA).stats = StatsSnapshot.zero ∧
    stopProcessUnsafe (stopProcessUnsafe runningA) = stopProcessUnsafe runningA :=
  ⟨(stop_idempotent_clears runningA (by decide)).2.1,
   (stop_idempotent_clears runningA (by decide)).2.2.2.2.2.1,
   (stop_idempotent_clears runningA (by decide)).2.2.2.2.2.2.1⟩

/-- C2: starting a model key absent from the current configuration mapping
fails with `ValueError("Model not found in config")` (a 404 through the
route) and returns the service state unchanged — in particular the running
backend, its model key, port, readiness flag, stats and log buffer are all
untouched. -/
theorem start_unknown_key_no_mutation (s : ServiceState) (cfg : ConfigManager)
    (key : String) (ctx? : Option Nat) (freePort : Nat) (spawn : Option BackendProcess)
    (hcfg : s.config_mgr = some cfg)
    (hkey : cfg.get_models.lookup key = none) :
    startModelServer s key ctx? freePort spawn = (s, .error .modelNotFound) ∧
    startServerRoute s key ctx? freePort spawn =
      (s, .httpError 404 "Model not found in config") := by
  unfold startServerRoute startModelServer
  rw [hcfg]
  constructor <;> simp only [hkey]

theorem start_unknown_key_no_mutation_witness :
    startModelServer runningA "z" none 9000 (some procA) =
      (runningA, .error .modelNotFound) :=
  (start_unknown_key_no_mutation runningA cfgAB "z" none 9000 (some procA)
    rfl (by decide)).1

/-- C10: `stop()` never resets the current context size: for any reachable
state, the status report after `stop()` still shows `ctx` equal to the
last-started context size, while `running` is false and `model`, `port`
and `pid` are `None`. -/
theorem stop_preserves_ctx_status (s : ServiceState) (hInv : StoppedCleared s) :
    (getStatus (stopProcessUnsafe s)).ctx = s.current_ctx ∧
    (getStatus (stopProcessUnsafe s)).running = false ∧
    (getStatus (stopProcessUnsafe s)).model = none ∧
    (getStatus (stopProcessUnsafe s)).port = none ∧
    (getStatus (stopProcessUnsafe s)).pid = none := by
  obtain ⟨h1, _, _, _⟩ := stopProcessUnsafe_cleared s hInv
  have hp := stopProcessUnsafe_process s
  have hctx := (stopProcessUnsafe_frame s).1
  unfold getStatus isRunning
  rw [hp, hctx, h1]
  exact ⟨rfl, rfl, rfl, rfl, rfl⟩

theorem stop_preserves_ctx_status_witness :
    (getStatus (stopProcessUnsafe runningA)).ctx = 4096 ∧
    (getStatus (stopProcessUnsafe runningA)).running = false :=
  ⟨(stop_preserves_ctx_status runningA (by decide)).1,
   (stop_preserves_ctx_status runningA (by decide)).2.1⟩

/-- A configuration state with a previously loaded non-empty mapping. -/
def cfgLoaded : ConfigManager :=
  { models := [("a", { cmd := some "cmd" })], last_mtime := 1 }

/-- C8 counterexample: a `reload()` in which parsing raises does NOT yield
the empty mapping — the exception is caught after logging, before
`self.models` was reassigned, so `get_models()` still returns the mapping
loaded before. -/
theorem reload_parse_error_keeps_models :
    (cfgLoaded.reload .parseError).get_models = [("a", { cmd := some "cmd" })] ∧
    (cfgLoaded.reload .parseError).get_models ≠ [] := by
  exact ⟨rfl, by decide⟩

/-- C8 amended: a missing configuration file is non-fatal and yields the
empty mapping regardless of what was loaded before; a parse failure is
also non-fatal but keeps the previously loaded mapping (and mtime)
unchanged; a successful parse replaces the mapping wholesale. -/
theorem reload_missing_empty_error_keeps (cm : ConfigManager) :
    (cm.reload .fileMissing).get_models = [] ∧
    cm.reload .parseError = cm ∧
    (∀ (mtime : Nat) (ms : List (String × ModelConf)),
        (cm.reload (.parsed mtime ms)).get_models = ms) :=
  ⟨rfl, rfl, fun _ _ => rfl⟩

/-! ### Helper lemmas about the log monitor -/

theorem promptStep_fst (s : ServiceState) (d : List Char) :
    ((promptStep s d).1).stats.total_tokens = s.stats.total_tokens ∧
    ((promptStep s d).1).ready = s.ready := by
  unfold promptStep
  split
  · exact ⟨rfl, rfl⟩
  · split
    · exact ⟨rfl, rfl⟩
    · exact ⟨rfl, rfl⟩

theorem evalStep_fst (s : ServiceState) (d : List Char) :
    s.stats.total_tokens ≤ ((evalStep s d).1).stats.total_tokens ∧
    ((evalStep s d).1).ready = s.ready := by
  unfold evalStep
  split
  · exact ⟨le_refl _, rfl⟩
  · split
    · exact ⟨le_refl _, rfl⟩
    · exact ⟨Nat.le_add_right _ _, rfl⟩

theorem releaseStep_fst (s : ServiceState) (d : List Char) :
    (releaseStep s d).stats.total_tokens = s.stats.total_tokens ∧
    (releaseStep s d).ready = s.ready := by
  unfold releaseStep
  split
  · exact ⟨rfl, rfl⟩
  · by_cases h : 0 < s.current_ctx <;> simp [h]

theorem statsUpdate_master (s : ServiceState) (d : List Char) :
    s.stats.total_tokens ≤ (statsUpdate s d).stats.total_tokens ∧
    (statsUpdate s d).ready = s.ready := by
  unfold statsUpdate
  rcases h1 : promptStep s d with ⟨s1, b1⟩
  have hp1 : s1.stats.total_tokens = s.stats.total_tokens := by
    have h := (promptStep_fst s d).1; rw [h1] at h; exact h
  have hr1 : s1.ready = s.ready := by
    have h := (promptStep_fst s d).2; rw [h1] at h; exact h
  cases b1 with
  | false => exact ⟨le_of_eq hp1.symm, hr1⟩
  | true =>
    rcases h2 : evalStep s1 d with ⟨s2, b2⟩
    have hp2 : s1.stats.total_tokens ≤ s2.stats.total_tokens := by
      have h := (evalStep_fst s1 d).1; rw [h2] at h; exact h
    have hr2 : s2.ready = s1.ready := by
      have h := (evalStep_fst s1 d).2; rw [h2] at h; exact h
    have hrw : (match (s1, true) with
        | (s1, false) => s1
        | (s1, true) =>
          match evalStep s1 d with
          | (s2, false) => s2
          | (s2, true) => releaseStep s2 d) =
        (match evalStep s1 d with
          | (s2, false) => s2
          | (s2, true) => releaseStep s2 d) := rfl
    rw [hrw, h2]
    cases b2 with
    | false => exact ⟨le_trans (le_of_eq hp1.symm) hp2, hr2.trans hr1⟩
    | true =>
      constructor
      · calc s.stats.total_tokens = s1.stats.total_tokens := hp1.symm
          _ ≤ s2.stats.total_tokens := hp2
          _ = (releaseStep s2 d).stats.total_tokens := ((releaseStep_fst s2 d).1).symm
      · exact ((releaseStep_fst s2 d).2).trans (hr2.trans hr1)

theorem statsUpdate_ready (s : ServiceState) (d : List Char) :
    (statsUpdate s d).ready = s.ready :=
  (statsUpdate_master s d).2

theorem statsUpdate_total (s : ServiceState) (d : List Char) :
    s.stats.total_tokens ≤ (statsUpdate s d).stats.total_tokens :=
  (statsUpdate_master s d).1

theorem statsUpdate_eq_of_no_match (s : ServiceState) (d : List Char)
    (hp : reSearch matchPromptAt d = none)
    (he : reSearch matchEvalAt d = none)
    (hr : reSearch matchReleaseAt d = none) :
    statsUpdate s d = s := by
  unfold statsUpdate promptStep evalStep releaseStep
  rw [hp]
  simp only [he, hr]

theorem processLine_ready (s : ServiceState) (line : String) :
    (processLine s line).ready = (s.ready || isReadyMarker (pyRstrip line.data)) := by
  unfold processLine
  dsimp only
  by_cases hm : isReadyMarker (pyRstrip line.data) = true
  · rw [if_pos hm, statsUpdate_ready, hm, Bool.or_true]
  · rw [if_neg hm, statsUpdate_ready]
    cases hb : isReadyMarker (pyRstrip line.data) with
    | false => rw [Bool.or_false]
    | true => exact absurd hb hm

/-- `startModelServer` on the success path: the previous backend is first
torn down, then the new process, model key, context and port are
installed; the returned command is the template after placeholder
substitution with the allocated port, the resolved context and the bind
host. -/
theorem startModelServer_success (s : ServiceState) (cfg : ConfigManager) (key : String)
    (conf : ModelConf) (ctx? : Option Nat) (fp : Nat) (p : BackendProcess)
    (hcfg : s.config_mgr = some cfg) (hk : cfg.get_models.lookup key = some conf) :
    startModelServer s key ctx? fp (some p) =
      ({ stopProcessUnsafe s with
         process := some p,
         current_model := some key,
         current_ctx := ctx?.getD s.default_ctx,
         current_port := fp },
       .ok (fp, resolveCmd (conf.cmd.getD "") fp (ctx?.getD s.default_ctx) s.host)) := by
  unfold startModelServer
  rw [hcfg]
  simp only [hk]

/-- C4: `total_tokens` is monotonically non-decreasing under log-line
processing (each line leaves it unchanged or adds the parsed non-negative
token count), and it is reset to zero — together with the rest of the
stats — exactly at the stop / restart boundaries: by `stop()` and by the
teardown a (re)start performs before installing the new backend. -/
theorem total_tokens_monotone_reset :
    (∀ (s : ServiceState) (line : String),
        s.stats.total_tokens ≤ (processLine s line).stats.total_tokens) ∧
    (∀ s : ServiceState, StoppedCleared s →
        (stopProcessUnsafe s).stats = StatsSnapshot.zero) ∧
    (∀ (s : ServiceState) (cfg : ConfigManager) (key : String) (conf : ModelConf)
        (ctx? : Option Nat) (fp : Nat) (p : BackendProcess),
        s.config_mgr = some cfg → cfg.get_models.lookup key = some conf →
        StoppedCleared s →
        ((startModelServer s key ctx? fp (some p)).1).stats = StatsSnapshot.zero) := by
  refine ⟨?_, ?_, ?_⟩
  · intro s line
    unfold processLine
    dsimp only
    by_cases hm : isReadyMarker (pyRstrip line.data) = true
    · rw [if_pos hm]
      refine le_trans ?_ (statsUpdate_total _ _)
      exact le_of_eq rfl
    · rw [if_neg hm]
      refine le_trans ?_ (statsUpdate_total _ _)
      exact le_of_eq rfl
  · intro s hInv
    exact (stopProcessUnsafe_cleared s hInv).2.2.2
  · intro s cfg key conf ctx? fp p hcfg hk hInv
    rw [startModelServer_success s cfg key conf ctx? fp p hcfg hk]
    simpa using (stopProcessUnsafe_cleared s hInv).2.2.2

theorem total_tokens_monotone_reset_witness :
    runningA.stats.total_tokens ≤
      (processLine runningA "main: model loaded").stats.total_tokens ∧
    (stopProcessUnsafe runningA).stats = StatsSnapshot.zero ∧
    ((startModelServer runningA "b" none 9001 (some procA)).1).stats =
      StatsSnapshot.zero :=
  ⟨total_tokens_monotone_reset.1 runningA "main: model loaded",
   total_tokens_monotone_reset.2.1 runningA (by decide),
   total_tokens_monotone_reset.2.2 runningA cfgAB "b" { cmd := some "serve $PORT" }
     none 9001 procA rfl (by decide) (by decide)⟩

/-- A state in which the backend was just started: flag down, stats zero. -/
def startingA : ServiceState :=
  { runningA with ready := false, stats := StatsSnapshot.zero }

/-- A state whose readiness flag is already up, with the marker line
already in the log buffer. -/
def readyA : ServiceState :=
  { runningA with logs := ["main: model loaded"] }

/-- C3 counterexample: a second qualifying line (`main: model loaded`)
does leave the flag true, but it is NOT free of state change — the line
is appended to the log buffer again, so the resulting `ServiceState`
differs from the state after the first line. -/
theorem ready_second_line_changes_state :
    (processLine (processLine startingA "main: model loaded") "main: model loaded").ready
      = true ∧
    processLine (processLine startingA "main: model loaded") "main: model loaded" ≠
      processLine startingA "main: model loaded" := by decide

/-- C3 (amended): the readiness flag is false immediately after every
successful `start()` from a reachable state; a processed line raises it
exactly when the line carries a readiness marker (so the transition is
one-way and idempotent); and a second qualifying line that matches no
stats pattern changes nothing except appending the line to the log
buffer. -/
theorem readiness_lifecycle :
    (∀ (s : ServiceState) (cfg : ConfigManager) (key : String) (conf : ModelConf)
        (ctx? : Option Nat) (fp : Nat) (p : BackendProcess),
        s.config_mgr = some cfg → cfg.get_models.lookup key = some conf →
        StoppedCleared s →
        ((startModelServer s key ctx? fp (some p)).1).ready = false) ∧
    (∀ (s : ServiceState) (line : String),
        (processLine s line).ready = (s.ready || isReadyMarker (pyRstrip line.data))) ∧
    (∀ (s : ServiceState) (line : String),
        s.ready = true → isReadyMarker (pyRstrip line.data) = true →
        reSearch matchPromptAt (pyRstrip line.data) = none →
        reSearch matchEvalAt (pyRstrip line.data) = none →
        reSearch matchReleaseAt (pyRstrip line.data) = none →
        processLine s line =
          { s with logs := dequeAppend 2000 s.logs (String.mk (pyRstrip line.data)) }) := by
  refine ⟨?_, processLine_ready, ?_⟩
  · intro s cfg key conf ctx? fp p hcfg hk hInv
    rw [startModelServer_success s cfg key conf ctx? fp p hcfg hk]
    simpa using (stopProcessUnsafe_cleared s hInv).2.2.1
  · intro s line hready hm hp he hr
    obtain ⟨proc, cm, cc, cp, dc, hh, r, lg, cfgm, st⟩ := s
    simp only at hready
    subst hready
    unfold processLine
    dsimp only
    rw [if_pos hm, statsUpdate_eq_of_no_match _ _ hp he hr]

theorem readiness_lifecycle_witness :
    ((startModelServer runningA "b" none 9001 (some procA)).1).ready = false ∧
    processLine readyA "main: model loaded" =
      { readyA with
        logs := dequeAppend 2000 readyA.logs
          (String.mk (pyRstrip "main: model loaded".data)) } :=
  ⟨readiness_lifecycle.1 runningA cfgAB "b" { cmd := some "serve $PORT" } none 9001
      procA rfl (by decide) (by decide),
   readiness_lifecycle.2.2 readyA "main: model loaded" rfl (by decide) (by decide)
      (by decide) (by decide)⟩

/-- Evaluation rule for `parseFloat` on a valid capture, phrased so the
`Nat` subcomputations can be discharged by `decide` and the rational
value by `norm_num`. -/
theorem parseFloat_eval (l : List Char) (ipn fpn len : Nat)
    (hcond : l.all digitDot = true ∧ l.count '.' ≤ 1 ∧
      l.any (fun c => c.isDigit) = true)
    (hip : parseNat (l.takeWhile (fun c => c ≠ '.')) = ipn)
    (hfp : parseNat ((l.dropWhile (fun c => c ≠ '.')).drop 1) = fpn)
    (hlen : ((l.dropWhile (fun c => c ≠ '.')).drop 1).length = len) :
    parseFloat l = some ((ipn : ℚ) + (fpn : ℚ) / (10 : ℚ) ^ len) := by
  unfold parseFloat
  rw [if_pos hcond]
  dsimp only
  rw [hip, hfp, hlen]

/-- The §8 scenario log line exactly as the claim states it, with no
leading whitespace. -/
def evalLineBare : String :=
  "eval time =     100.00 ms /     5 tokens (   20.00 ms per token,    50.00 tokens per second)"

/-- The same line preceded by whitespace (as real llama.cpp output is
padded); one leading space satisfies the regex's `\s+`. -/
def evalLineWS : String :=
  " eval time =     100.00 ms /     5 tokens (   20.00 ms per token,    50.00 tokens per second)"

/-- C7 counterexample: on the scenario line with no leading whitespace,
`re_eval` (whose pattern starts with `\s+`) does not match — nor does any
other pattern — so the stats are left unchanged: `gen_speed` does not
become 50.00 and `total_tokens` does not grow by 5. -/
theorem eval_line_no_leading_ws_unmatched :
    reSearch matchEvalAt (pyRstrip evalLineBare.data) = none ∧
    reSearch matchPromptAt (pyRstrip evalLineBare.data) = none ∧
    (processLine startingA evalLineBare).stats = startingA.stats ∧
    ¬ ((processLine startingA evalLineBare).stats.gen_speed = (50 : ℚ) ∧
       (processLine startingA evalLineBare).stats.total_tokens =
         startingA.stats.total_tokens + 5) := by decide

/-- C7 (amended): when the log monitor processes the scenario line with
at least one character of leading whitespace, it is classified as a
generation-evaluation metric: `gen_speed` is replaced by 50.00,
`total_tokens` grows by exactly 5, and the only other change is the
line's append to the log buffer. -/
theorem eval_line_leading_ws_updates_stats (s : ServiceState) :
    processLine s evalLineWS =
      { s with
        logs := dequeAppend 2000 s.logs evalLineWS,
        stats := { s.stats with
                   gen_speed := (50 : ℚ),
                   total_tokens := s.stats.total_tokens + 5 } } := by
  have hm : isReadyMarker (pyRstrip evalLineWS.data) = false := by decide
  have hp : reSearch matchPromptAt (pyRstrip evalLineWS.data) = none := by decide
  have he : reSearch matchEvalAt (pyRstrip evalLineWS.data) =
      some ("5".data, "50.00".data) := by decide
  have hr : reSearch matchReleaseAt (pyRstrip evalLineWS.data) = none := by decide
  have hs : String.mk (pyRstrip evalLineWS.data) = evalLineWS := by decide
  have hf : parseFloat ("50.00".data) = some 50 := by
    rw [parseFloat_eval "50.00".data 50 0 2 (by decide) (by decide) (by decide)
      (by decide)]
    norm_num
  have hn : parseNat ("5".data) = 5 := by decide
  unfold processLine
  dsimp only
  rw [hs, if_neg (by rw [hm]; exact Bool.false_ne_true)]
  unfold statsUpdate promptStep evalStep releaseStep
  simp only [hp, he, hr, hf, hn]

/-! ### Helper lemmas about placeholder substitution -/

theorem decDigit_ne_dollar : ∀ d : Nat, decDigit d ≠ '$'
  | 0 => by decide
  | 1 => by decide
  | 2 => by decide
  | 3 => by decide
  | 4 => by decide
  | 5 => by decide
  | 6 => by decide
  | 7 => by decide
  | 8 => by decide
  | _ + 9 => fun h => absurd h (show ¬ ('9' = '$') by decide)

theorem natToStr_no_dollar (n : Nat) : '$' ∉ natToStr n := by
  induction n using Nat.strong_induction_on with
  | _ n ih =>
    rw [natToStr]
    split
    · intro hmem
      rw [List.mem_singleton] at hmem
      exact decDigit_ne_dollar n hmem.symm
    · next hge =>
      intro hmem
      rw [List.mem_append] at hmem
      rcases hmem with h | h
      · exact ih (n / 10) (Nat.div_lt_self (by omega) (by omega)) h
      · rw [List.mem_singleton] at h
        exact decDigit_ne_dollar _ h.symm

theorem replaceL_nil (pat rep : List Char) : replaceL pat rep [] = [] := by
  rw [replaceL]

theorem replaceL_cons_not_prefixOf (pat rep : List Char) (c : Char) (l : List Char)
    (h : pat.isPrefixOf (c :: l) = false) :
    replaceL pat rep (c :: l) = c :: replaceL pat rep l := by
  rw [replaceL, dif_neg]
  rintro ⟨-, h2⟩
  rw [h] at h2
  exact Bool.false_ne_true h2

theorem replaceL_append_self (pat rep t : List Char) (hp : pat ≠ []) :
    replaceL pat rep (pat ++ t) = rep ++ replaceL pat rep t := by
  rcases pat with _ | ⟨p, ps⟩
  · exact absurd rfl hp
  · have hpre : (p :: ps).isPrefixOf (p :: (ps ++ t)) = true := by
      rw [show (p :: (ps ++ t)) = (p :: ps) ++ t from rfl]
      exact List.isPrefixOf_iff_prefix.mpr (List.prefix_append (p :: ps) t)
    rw [show ((p :: ps) ++ t) = p :: (ps ++ t) from rfl, replaceL, dif_pos ⟨hp, hpre⟩,
      show (p :: (ps ++ t)) = (p :: ps) ++ t from rfl, List.drop_left]

theorem replaceL_self (pat rep : List Char) (hp : pat ≠ []) :
    replaceL pat rep pat = rep := by
  have h := replaceL_append_self pat rep [] hp
  rw [List.append_nil, replaceL_nil, List.append_nil] at h
  exact h

theorem replaceL_head_notMem_append (c0 : Char) (ps rep a l : List Char)
    (h : c0 ∉ a) :
    replaceL (c0 :: ps) rep (a ++ l) = a ++ replaceL (c0 :: ps) rep l := by
  induction a with
  | nil => rfl
  | cons c a ih =>
    have hc : ¬ (c0 = c) := fun hcc => h (hcc ▸ List.mem_cons_self c a)
    have hpre : (c0 :: ps).isPrefixOf (c :: (a ++ l)) = false := by
      rw [List.isPrefixOf_cons₂]
      simp [hc]
    rw [List.cons_append, replaceL_cons_not_prefixOf _ _ _ _ hpre,
      ih (fun hm => h (List.mem_cons_of_mem c hm))]
    rfl

/-- A pattern whose first character does not occur in `a` matches nowhere
in `a`, so replacement walks over `a` unchanged. -/
theorem replaceL_append_no_occ (pat : List Char) (c0 : Char) (ps rep a l : List Char)
    (hpat : pat = c0 :: ps) (h : c0 ∉ a) :
    replaceL pat rep (a ++ l) = a ++ replaceL pat rep l := by
  subst hpat
  exact replaceL_head_notMem_append c0 ps rep a l h

/-- A pattern whose first character does not occur in `l` leaves `l`
unchanged. -/
theorem replaceL_no_occ (pat : List Char) (c0 : Char) (ps rep l : List Char)
    (hpat : pat = c0 :: ps) (h : c0 ∉ l) :
    replaceL pat rep l = l := by
  subst hpat
  have hr := replaceL_head_notMem_append c0 ps rep l [] h
  rw [List.append_nil, replaceL_nil, List.append_nil] at hr
  exact hr

theorem data_mk (l : List Char) : (String.mk l).data = l := rfl

/-- The §8 scenario resolution: the template `run --port ${PORT}` with
allocated port `P` resolves to `run --port P` (for every context size
and host, whose placeholders do not occur). -/
theorem resolveCmd_run_port (P ctx : Nat) (host : String) :
    resolveCmd "run --port ${PORT}" P ctx host = "run --port " ++ natStr P := by
  have hnem : '$' ∉ "run --port ".data ++ natToStr P := by
    rw [List.mem_append]
    rintro (h | h)
    · exact absurd h (by decide)
    · exact natToStr_no_dollar P h
  have h1 : replaceL "${PORT}".data (natToStr P) "run --port ${PORT}".data
      = "run --port ".data ++ natToStr P := by
    rw [show "run --port ${PORT}".data = "run --port ".data ++ "${PORT}".data from rfl]
    rw [replaceL_append_no_occ "${PORT}".data '$' "{PORT}".data (natToStr P)
      "run --port ".data "${PORT}".data rfl (by decide)]
    rw [replaceL_self "${PORT}".data (natToStr P) (by decide)]
  have h2 := replaceL_no_occ "${CTX}".data '$' "{CTX}".data (natToStr ctx)
    ("run --port ".data ++ natToStr P) rfl hnem
  have h3 := replaceL_no_occ "${HOST}".data '$' "{HOST}".data host.data
    ("run --port ".data ++ natToStr P) rfl hnem
  have h4 := replaceL_no_occ "$PORT".data '$' "PORT".data (natToStr P)
    ("run --port ".data ++ natToStr P) rfl hnem
  have h5 := replaceL_no_occ "$CTX".data '$' "CTX".data (natToStr ctx)
    ("run --port ".data ++ natToStr P) rfl hnem
  have h6 := replaceL_no_occ "$HOST".data '$' "HOST".data host.data
    ("run --port ".data ++ natToStr P) rfl hnem
  unfold resolveCmd pyReplace natStr
  dsimp only
  rw [h1, h2, h3, h4, h5, h6]
  rfl

/-- C5: `start` substitutes `${PORT}`, `${CTX}`, `${HOST}` and the
bare-dollar forms with the allocated port, the resolved context size
(the explicit argument when given, otherwise the configured default) and
the bind host; for the template `run --port ${PORT}` and allocated port
`P` the resolved command is `run --port P`, and `status()` afterwards
reports `port = P` and `running = true`. -/
theorem start_substitutes_placeholders :
    (∀ (s : ServiceState) (cfg : ConfigManager) (key : String) (conf : ModelConf)
        (ctx? : Option Nat) (fp : Nat) (p : BackendProcess),
        s.config_mgr = some cfg → cfg.get_models.lookup key = some conf →
        (startModelServer s key ctx? fp (some p)).2 =
          .ok (fp, resolveCmd (conf.cmd.getD "") fp (ctx?.getD s.default_ctx) s.host) ∧
        ((startModelServer s key ctx? fp (some p)).1).current_ctx =
          ctx?.getD s.default_ctx ∧
        ((startModelServer s key ctx? fp (some p)).1).current_port = fp) ∧
    (∀ (P ctx : Nat) (host : String),
        resolveCmd "run --port ${PORT}" P ctx host = "run --port " ++ natStr P) ∧
    (∀ (s : ServiceState) (cfg : ConfigManager) (key : String) (conf : ModelConf)
        (ctx? : Option Nat) (fp : Nat) (p : BackendProcess),
        s.config_mgr = some cfg → cfg.get_models.lookup key = some conf →
        p.alive = true →
        (getStatus ((startModelServer s key ctx? fp (some p)).1)).port = some fp ∧
        (getStatus ((startModelServer s key ctx? fp (some p)).1)).running = true) := by
  refine ⟨?_, resolveCmd_run_port, ?_⟩
  · intro s cfg key conf ctx? fp p hcfg hk
    rw [startModelServer_success s cfg key conf ctx? fp p hcfg hk]
    exact ⟨rfl, rfl, rfl⟩
  · intro s cfg key conf ctx? fp p hcfg hk halive
    rw [startModelServer_success s cfg key conf ctx? fp p hcfg hk]
    unfold getStatus isRunning
    simp [halive]

theorem start_substitutes_placeholders_witness :
    (startModelServer runningA "a" none 8081 (some procA)).2 =
      .ok (8081, resolveCmd "run --port ${PORT}" 8081 4096 "0.0.0.0") ∧
    (getStatus ((startModelServer runningA "a" none 8081 (some procA)).1)).running
      = true :=
  ⟨(start_substitutes_placeholders.1 runningA cfgAB "a"
      { cmd := some "run --port ${PORT}" } none 8081 procA rfl (by decide)).1,
   (start_substitutes_placeholders.2.2 runningA cfgAB "a"
      { cmd := some "run --port ${PORT}" } none 8081 procA rfl (by decide) rfl).2⟩

/-! ### Helper lemmas about the gateway poll loop -/

theorem pollLoop_never (readyAt : Nat → Bool) (h : ∀ k, readyAt k = false) :
    ∀ d r, 60 - r = d → r ≤ 60 → pollLoop readyAt r = 60 := by
  intro d
  induction d with
  | zero =>
    intro r h0 hr
    have hre : r = 60 := by omega
    subst hre
    rw [pollLoop, dif_neg (by omega)]
  | succ d ih =>
    intro r h0 hr
    have hlt : r < 60 := by omega
    rw [pollLoop, dif_pos hlt, h r, if_neg Bool.false_ne_true]
    exact ih (r + 1) (by omega) (by omega)

theorem pollLoop_never_ready (readyAt : Nat → Bool) (h : ∀ k, readyAt k = false) :
    pollLoop readyAt 0 = 60 :=
  pollLoop_never readyAt h 60 0 rfl (by omega)

/-- C6: a proxied request for model `b` while `a` is current triggers the
auto-load (stop-then-start); if the backend never signals readiness, the
gateway's wait loop makes its bounded 60 poll attempts (one per 1-second
sleep) and the request fails with the 504 gateway-timeout response, while
the state stays exactly as the start left it: the new backend process is
not torn down and `a` is not restored. -/
theorem proxy_readiness_timeout
    (s : ServiceState) (cfg : ConfigManager) (a b : String) (conf : ModelConf)
    (path : String) (fp : Nat) (p : BackendProcess) (readyAt : Nat → Bool)
    (hcfg : s.config_mgr = some cfg)
    (hconf : cfg.get_models.lookup b = some conf)
    (hcur : s.current_model = some a)
    (hne : a ≠ b)
    (hnever : ∀ k, readyAt k = false) :
    proxyToLlama s (some (some b)) path fp (some p) readyAt =
      ((startModelServer s b none fp (some p)).1,
        .httpError 504 "Model failed to load within timeout") ∧
    pollLoop readyAt 0 = 60 ∧
    ((startModelServer s b none fp (some p)).1).process = some p ∧
    ((startModelServer s b none fp (some p)).1).current_model = some b := by
  have hstart := startModelServer_success s cfg b conf none fp p hcfg hconf
  have hcond : some b ≠ s.current_model ∨ isRunning s = false := by
    left
    rw [hcur]
    intro hbe
    exact hne (Option.some.inj hbe).symm
  refine ⟨?_, pollLoop_never_ready readyAt hnever, ?_, ?_⟩
  · unfold proxyToLlama
    dsimp only
    rw [if_pos hcond, hstart]
    unfold proxyWait
    dsimp only
    rw [pollLoop_never_ready readyAt hnever, hnever 60,
      if_neg Bool.false_ne_true]
  · rw [hstart]
  · rw [hstart]

theorem proxy_readiness_timeout_witness :
    proxyToLlama runningA (some (some "b")) "/v1/completions" 9001 (some procA)
        (fun _ => false) =
      ((startModelServer runningA "b" none 9001 (some procA)).1,
        .httpError 504 "Model failed to load within timeout") ∧
    pollLoop (fun _ => false) 0 = 60 :=
  ⟨(proxy_readiness_timeout runningA cfgAB "a" "b" { cmd := some "serve $PORT" }
      "/v1/completions" 9001 procA (fun _ => false) rfl (by decide) rfl
      (by decide) (fun _ => rfl)).1,
   (proxy_readiness_timeout runningA cfgAB "a" "b" { cmd := some "serve $PORT" }
      "/v1/completions" 9001 procA (fun _ => false) rfl (by decide) rfl
      (by decide) (fun _ => rfl)).2.1⟩

/-! ### Helper lemmas about regex search -/

theorem lit_eq_append (p : List Char) : ∀ l r, lit p l = some r → l = p ++ r := by
  induction p with
  | nil =>
    intro l r h
    simp only [lit, Option.some.injEq] at h
    rw [h]
    rfl
  | cons p ps ih =>
    intro l r h
    rcases l with _ | ⟨c, cs⟩
    · simp only [lit] at h
      exact absurd h (by simp)
    · simp only [lit] at h
      by_cases hc : c = p
      · rw [if_pos hc] at h
        rw [hc, List.cons_append, ih cs r h]
      · rw [if_neg hc] at h
        exact absurd h (by simp)

theorem lit_append_self (p r : List Char) : lit p (p ++ r) = some r := by
  induction p with
  | nil => rfl
  | cons c cs ih =>
    rw [List.cons_append]
    simp only [lit, if_pos rfl]
    exact ih

theorem reSearch_eq_some {α : Type} (m : List Char → Option α) :
    ∀ l v, reSearch m l = some v → ∃ t u, u ++ t = l ∧ m t = some v := by
  intro l
  induction l with
  | nil =>
    intro v h
    rw [reSearch] at h
    exact ⟨[], [], rfl, h⟩
  | cons c rest ih =>
    intro v h
    rw [reSearch] at h
    rcases hm : m (c :: rest) with _ | w
    · rw [hm] at h
      obtain ⟨t, u, hu, hmt⟩ := ih v h
      exact ⟨t, c :: u, by rw [List.cons_append, hu], hmt⟩
    · rw [hm] at h
      exact ⟨c :: rest, [], rfl, by rw [hm]; exact h⟩

theorem reSearch_some_of_suffix {α : Type} (m : List Char → Option α) :
    ∀ (l t : List Char) (v : α), m t = some v → (∃ u, u ++ t = l) →
      ∃ w, reSearch m l = some w := by
  intro l
  induction l with
  | nil =>
    rintro t v hm ⟨u, hu⟩
    obtain ⟨-, ht⟩ := List.append_eq_nil.mp hu
    subst ht
    exact ⟨v, by rw [reSearch]; exact hm⟩
  | cons c rest ih =>
    rintro t v hm ⟨u, hu⟩
    rw [reSearch]
    rcases hmc : m (c :: rest) with _ | w
    · rcases u with _ | ⟨c', u'⟩
      · have ht : t = c :: rest := by simpa using hu
        rw [ht, hmc] at hm
        exact absurd hm (by simp)
      · rw [List.cons_append] at hu
        obtain ⟨w, hw⟩ := ih t v hm ⟨u', (List.cons.injEq _ _ _ _ ▸ hu).2⟩
        exact ⟨w, hw⟩
    · exact ⟨w, rfl⟩

/-- The heart of C9: a `re_prompt` match at a position means `re_eval`
matches six characters later (the space between `prompt` and `eval`
satisfies the leading `\s+`), with the same two captured values. -/
theorem matchPromptAt_imp (l : List Char) (v : List Char × List Char)
    (h : matchPromptAt l = some v) : matchEvalAt (l.drop 6) = some v := by
  unfold matchPromptAt at h
  rcases hl : lit "prompt eval time".data l with _ | r
  · rw [hl] at h
    exact absurd h (by simp)
  · rw [hl] at h
    have hle := lit_eq_append "prompt eval time".data l r hl
    subst hle
    exact h

/-- The §9 example prompt-evaluation log line. -/
def promptLine : String :=
  "prompt eval time =       4.67 ms /    11 tokens (    0.42 ms per token,  2355.46 tokens per second)"

/-- A line carrying a generation metric before a prompt metric: the
leftmost `re_eval` match is then the generation portion, not the prompt
portion. -/
def twoMetricLine : String :=
  " eval time = 1.00 ms / 2 tokens ( 0.50 ms per token, 3.00 tokens per second) prompt eval time = 4.67 ms / 11 tokens ( 0.42 ms per token, 2355.46 tokens per second)"

/-- C9 counterexample: this line matches the prompt-evaluation pattern,
yet processing it does not give `gen_speed` the prompt rate (2355.46) and
does not add the prompt token count (11): the leftmost `\s+eval time`
match is the earlier generation metric, so `gen_speed` becomes 3.00 and
`total_tokens` grows by 2. -/
theorem prompt_line_two_metrics_gen_speed :
    (reSearch matchPromptAt (pyRstrip twoMetricLine.data)).isSome = true ∧
    (processLine startingA twoMetricLine).stats.gen_speed = 3 ∧
    (processLine startingA twoMetricLine).stats.total_tokens =
      startingA.stats.total_tokens + 2 ∧
    ¬ ((processLine startingA twoMetricLine).stats.gen_speed = 235546 / 100 ∧
       (processLine startingA twoMetricLine).stats.total_tokens =
         startingA.stats.total_tokens + 11) := by
  have hp : reSearch matchPromptAt (pyRstrip twoMetricLine.data) =
      some ("11".data, "2355.46".data) := by decide
  have he : reSearch matchEvalAt (pyRstrip twoMetricLine.data) =
      some ("2".data, "3.00".data) := by decide
  have hr : reSearch matchReleaseAt (pyRstrip twoMetricLine.data) = none := by decide
  have hm : isReadyMarker (pyRstrip twoMetricLine.data) = false := by decide
  have hf1 : parseFloat ("2355.46".data) = some (235546 / 100) := by
    rw [parseFloat_eval "2355.46".data 2355 46 2 (by decide) (by decide) (by decide)
      (by decide)]
    norm_num
  have hf2 : parseFloat ("3.00".data) = some 3 := by
    rw [parseFloat_eval "3.00".data 3 0 2 (by decide) (by decide) (by decide)
      (by decide)]
    norm_num
  have hn : parseNat ("2".data) = 2 := by decide
  have key : processLine startingA twoMetricLine =
      { startingA with
        logs := dequeAppend 2000 startingA.logs
          (String.mk (pyRstrip twoMetricLine.data)),
        stats := { ctx_used := startingA.stats.ctx_used,
                   ctx_limit := startingA.stats.ctx_limit,
                   total_tokens := startingA.stats.total_tokens + 2,
                   prompt_speed := 235546 / 100,
                   gen_speed := 3 } } := by
    unfold processLine
    dsimp only
    rw [if_neg (by rw [hm]; exact Bool.false_ne_true)]
    unfold statsUpdate promptStep evalStep releaseStep
    simp only [hp, he, hr, hf1, hf2, hn]
  refine ⟨by rw [hp]; rfl, by rw [key], by rw [key], ?_⟩
  rw [key]
  rintro ⟨h1, -⟩
  have h3 : (3 : ℚ) = 235546 / 100 := h1
  norm_num at h3

/-- C9 (amended): every line matching the prompt-evaluation pattern is
also matched by the generation-evaluation regex (its ` eval time` portion
qualifies for the leading `\s+`), so such lines also replace `gen_speed`
and add to `total_tokens`; the values transferred are the prompt rate and
the prompt token count whenever the prompt metric's portion is the
leftmost `\s+eval time` match, as on the §9 example line, where
`prompt_speed` and `gen_speed` both become 2355.46 and `total_tokens`
grows by 11. -/
theorem prompt_implies_eval_match :
    (∀ (l : List Char) (v : List Char × List Char),
        reSearch matchPromptAt l = some v →
        ∃ w, reSearch matchEvalAt l = some w) ∧
    (∀ s : ServiceState,
        (processLine s promptLine).stats.prompt_speed = 235546 / 100 ∧
        (processLine s promptLine).stats.gen_speed = 235546 / 100 ∧
        (processLine s promptLine).stats.total_tokens =
          s.stats.total_tokens + 11) := by
  constructor
  · intro l v h
    obtain ⟨t, u, hu, hmt⟩ := reSearch_eq_some matchPromptAt l v h
    have hev := matchPromptAt_imp t v hmt
    refine reSearch_some_of_suffix matchEvalAt l (t.drop 6) v hev ⟨u ++ t.take 6, ?_⟩
    rw [List.append_assoc, List.take_append_drop, hu]
  · intro s
    have hp : reSearch matchPromptAt (pyRstrip promptLine.data) =
        some ("11".data, "2355.46".data) := by decide
    have he : reSearch matchEvalAt (pyRstrip promptLine.data) =
        some ("11".data, "2355.46".data) := by decide
    have hr : reSearch matchReleaseAt (pyRstrip promptLine.data) = none := by decide
    have hm : isReadyMarker (pyRstrip promptLine.data) = false := by decide
    have hf : parseFloat ("2355.46".data) = some (235546 / 100) := by
      rw [parseFloat_eval "2355.46".data 2355 46 2 (by decide) (by decide) (by decide)
        (by decide)]
      norm_num
    have hn : parseNat ("11".data) = 11 := by decide
    unfold processLine
    dsimp only
    rw [if_neg (by rw [hm]; exact Bool.false_ne_true)]
    unfold statsUpdate promptStep evalStep releaseStep
    simp only [hp, he, hr, hf, hn]
    exact ⟨trivial, trivial, trivial⟩

theorem prompt_implies_eval_match_witness :
    ∃ w, reSearch matchEvalAt promptLine.data = some w :=
  prompt_implies_eval_match.1 promptLine.data ("11".data, "2355.46".data) (by decide)

end LlamaSwitch
